import Mathlib

/-!
Verification of the estimation-and-prediction engine of `poops.py`
(a meal → excretion-mass tracker). Python numeric values are modelled
exactly by rationals; `datetime` values parsed from the minute-resolution
format `%Y-%m-%d %H:%M` are modelled by integers counting minutes, and a
raw date string by `Option ℤ` — `some t` for a string `parse_dt` accepts
and `none` for one it rejects.
-/

namespace Poops

/-- Python's `round(x, 1)` on exact values: round `10*x` to the nearest
integer with ties to even (banker's rounding), then divide by 10.
`roundTiesEven x` is that nearest-integer step. -/
def roundTiesEven (x : ℚ) : ℤ :=
  let n := ⌊x⌋
  if x - n < 1/2 then n
  else if 1/2 < x - n then n + 1
  else if n % 2 = 0 then n else n + 1

/-- Model of `round(x, 1)` as used by the source. -/
def round1 (x : ℚ) : ℚ := (roundTiesEven (10 * x) : ℚ) / 10

lemma roundTiesEven_nonneg {x : ℚ} (hx : 0 ≤ x) : 0 ≤ roundTiesEven x := by
  have hfl : (0 : ℤ) ≤ ⌊x⌋ := by
    rw [Int.le_floor]
    exact_mod_cast hx
  unfold roundTiesEven
  dsimp only
  split
  · exact hfl
  · split
    · omega
    · split
      · exact hfl
      · omega

lemma round1_nonneg {x : ℚ} (hx : 0 ≤ x) : 0 ≤ round1 x := by
  have h := roundTiesEven_nonneg (x := 10 * x) (by linarith)
  have h' : (0 : ℚ) ≤ (roundTiesEven (10 * x) : ℚ) := by exact_mod_cast h
  unfold round1
  exact div_nonneg h' (by norm_num)

/-! The stock ledger (`current_poop_stock` updates in poops.py)

The meal save handler does `current_poop_stock += poop` (line 360).
The elimination save handler (lines 428–431) does
`if dump >= stock: stock = 0.0 else: stock = round(stock - dump, 1)`,
and the appended log entry stores `round(dump, 1)` (line 419). -/

/-- Meal append: the handler adds the predicted excretion mass. -/
def apply_meal (ledger predicted : ℚ) : ℚ := ledger + predicted

/-- Elimination record: clamped subtraction as in the tab-2 save handler. -/
def apply_elimination (ledger dump : ℚ) : ℚ :=
  if dump ≥ ledger then 0 else round1 (ledger - dump)

/-- The `amount` field stored in the elimination log entry: `round(dump, 1)`. -/
def elimination_log_amount (dump : ℚ) : ℚ := round1 dump

/-- One ledger event: a meal append (with its predicted excretion mass)
or an elimination record (with its requested discharged mass). -/
inductive Event
  | meal (g : ℚ)
  | elim (g : ℚ)
deriving DecidableEq

/-- The mass carried by an event. -/
def Event.mass : Event → ℚ
  | .meal g => g
  | .elim g => g

/-- Apply one event to the ledger, as the two save handlers do. -/
def apply_event (ledger : ℚ) : Event → ℚ
  | .meal g => apply_meal ledger g
  | .elim g => apply_elimination ledger g

lemma apply_event_nonneg {L : ℚ} (hL : 0 ≤ L) (e : Event) (he : 0 ≤ e.mass) :
    0 ≤ apply_event L e := by
  cases e with
  | meal g =>
    simp only [Event.mass] at he
    simp only [apply_event, apply_meal]
    linarith
  | elim g =>
    simp only [Event.mass] at he
    simp only [apply_event, apply_elimination]
    split
    · exact le_refl 0
    · rename_i h
      have : L - g ≥ 0 := by
        have := lt_of_not_ge h
        linarith
      exact round1_nonneg this

lemma foldl_apply_event_nonneg (ops : List Event) :
    ∀ L : ℚ, 0 ≤ L → (∀ e ∈ ops, 0 ≤ e.mass) → 0 ≤ ops.foldl apply_event L := by
  induction ops with
  | nil => intro L hL _; simpa using hL
  | cons e es ih =>
    intro L hL h
    simp only [List.foldl_cons]
    exact ih _ (apply_event_nonneg hL e (h e (by simp))) fun x hx => h x (by simp [hx])

/-- Incremental application: replaying the event log through the save
handlers starting from a ledger value of zero. -/
def replay (event_log : List Event) : ℚ := event_log.foldl apply_event 0

/-- Chronological replay loop used by `rebuild`. -/
def rebuildGo (acc : ℚ) : List Event → ℚ
  | [] => acc
  | e :: es => rebuildGo (apply_event acc e) es

/-- Modelled from the spec: `poops.py` has no `rebuild` routine (the spec
names `rebuild(ledger, event_log)` as the canonical recovery path after
store corruption). Following the spec's words, it replays all
meal/elimination events chronologically, applying the meal-add and
elimination-subtract-clamped-at-zero rules from zero, ignoring any
previously stored ledger value. -/
def rebuild (ledger : ℚ) (event_log : List Event) : ℚ := rebuildGo 0 event_log

lemma rebuildGo_eq_foldl (event_log : List Event) :
    ∀ acc : ℚ, rebuildGo acc event_log = event_log.foldl apply_event acc := by
  induction event_log with
  | nil => intro acc; rfl
  | cons e es ih => intro acc; simp only [rebuildGo, List.foldl_cons, ih]

/-- C1: starting from 0, any sequence of meal appends (adding the
predicted excretion mass) and elimination records (subtracting the
requested discharged mass, clamped) keeps the ledger ≥ 0 after every
operation, provided every appended and requested mass is ≥ 0. -/
theorem ledger_nonneg_invariant (ops : List Event)
    (h : ∀ e ∈ ops, 0 ≤ e.mass) (n : ℕ) :
    0 ≤ (ops.take n).foldl apply_event 0 :=
  foldl_apply_event_nonneg (ops.take n) 0 le_rfl
    fun e he => h e (List.take_subset n ops he)

theorem ledger_nonneg_invariant_witness :
    (∀ e ∈ [Event.meal 5, Event.elim 3, Event.elim 10], 0 ≤ e.mass) ∧
      0 ≤ (([Event.meal 5, Event.elim 3, Event.elim 10].take 2).foldl apply_event 0) :=
  ⟨by decide, ledger_nonneg_invariant [Event.meal 5, Event.elim 3, Event.elim 10] (by decide) 2⟩

/-- C2: `rebuild` replays the full event log chronologically with the
meal-add and elimination-subtract-clamped rules; its result equals the
ledger obtained by applying the same events incrementally from zero, and
it does not depend on the previously stored ledger value. -/
theorem rebuild_eq_incremental_replay (stored stored' : ℚ) (event_log : List Event) :
    rebuild stored event_log = event_log.foldl apply_event 0 ∧
      rebuild stored event_log = replay event_log ∧
      rebuild stored event_log = rebuild stored' event_log :=
  ⟨rebuildGo_eq_foldl event_log 0, rebuildGo_eq_foldl event_log 0, rfl⟩

/-- C3 counterexample: with ledger L = 1/25 (= 0.04 g) and requested
discharge d = 0, the handler stores `round(L - d, 1) = 0.0`, not
`max 0 (L - d) = 0.04`. -/
theorem apply_elimination_not_max_counterexample :
    apply_elimination (1/25) 0 ≠ max 0 ((1/25 : ℚ) - 0) := by
  have h1 : apply_elimination (1/25) 0 = 0 := by
    norm_num [apply_elimination, round1, roundTiesEven]
  have h2 : max 0 ((1/25 : ℚ) - 0) = 1/25 := by
    rw [max_eq_right] <;> norm_num
  rw [h1, h2]
  norm_num

/-- C3 (amended): for L ≥ 0 and d ≥ 0, recording an elimination sets the
ledger to 0 when d ≥ L and to `round(L − d, 1 decimal)` otherwise (so it
is never negative, and with L = 40 and d = 60 it becomes 0), while the
appended elimination log entry records `round(d, 1 decimal)` — the
requested amount rounded to one decimal, not the clamped amount. -/
theorem apply_elimination_clamp (L d : ℚ) (hL : 0 ≤ L) (hd : 0 ≤ d) :
    apply_elimination L d = (if L ≤ d then 0 else round1 (L - d)) ∧
      0 ≤ apply_elimination L d ∧
      apply_elimination 40 60 = 0 ∧
      elimination_log_amount d = round1 d := by
  refine ⟨by simp [apply_elimination, ge_iff_le], ?_, ?_, rfl⟩
  · unfold apply_elimination
    split
    · exact le_rfl
    · rename_i hlt
      exact round1_nonneg (by linarith [lt_of_not_ge hlt])
  · norm_num [apply_elimination]

theorem apply_elimination_clamp_witness :
    (0:ℚ) ≤ 40 ∧ (0:ℚ) ≤ 60 ∧ apply_elimination 40 60 = 0 :=
  ⟨by decide, by decide, (apply_elimination_clamp 40 60 (by decide) (by decide)).2.2.1⟩

/-! The excretion formula (`calculate_poop_amount`, poops.py lines 31–46)

The six coefficients are read from `st.secrets` inside one `try` block;
if any lookup raises, the `except` arm installs the full default set.
A secrets store is modelled as six optional values. -/

/-- The configuration source: each coefficient is present or absent. -/
structure Secrets where
  P_RATIO : Option ℚ
  F_RATIO : Option ℚ
  C_RATIO : Option ℚ
  FIBER_RATIO : Option ℚ
  WATER_FACTOR : Option ℚ
  BAC_FACTOR : Option ℚ
deriving DecidableEq

/-- A resolved coefficient set. -/
structure Coeffs where
  p_r : ℚ
  f_r : ℚ
  c_r : ℚ
  fib_r : ℚ
  w_f : ℚ
  b_f : ℚ
deriving DecidableEq

/-- The `except` arm's default set `0.1, 0.1, 0.2, 0.9, 2.33, 1.3`. -/
def defaultCoeffs : Coeffs :=
  ⟨1/10, 1/10, 1/5, 9/10, 233/100, 13/10⟩

/-- The `try` block: all six lookups succeed, or the defaults are used. -/
def getCoeffs (s : Secrets) : Coeffs :=
  match s with
  | ⟨some p, some f, some c, some fib, some w, some b⟩ => ⟨p, f, c, fib, w, b⟩
  | _ => defaultCoeffs

/-- Embeds `calculate_poop_amount(protein, fat, carbs, fiber)` of poops.py. -/
def calculate_poop_amount (s : Secrets) (protein fat carbs fiber : ℚ) : ℚ :=
  let co := getCoeffs s
  round1 (((protein * co.p_r) + (fat * co.f_r) + (carbs * co.c_r) + (fiber * co.fib_r))
    * co.w_f * co.b_f)

lemma getCoeffs_of_missing (s : Secrets)
    (h : Secrets.P_RATIO s = none ∨ Secrets.F_RATIO s = none ∨ Secrets.C_RATIO s = none ∨
      Secrets.FIBER_RATIO s = none ∨ Secrets.WATER_FACTOR s = none ∨ Secrets.BAC_FACTOR s = none) :
    getCoeffs s = defaultCoeffs := by
  obtain ⟨a, b, c, d, e, f⟩ := s
  cases a <;> cases b <;> cases c <;> cases d <;> cases e <;> cases f <;>
    simp_all [getCoeffs]

/-- C4: the excretion estimate is
`round((protein*P + fat*F + carbs*C + fiber*Fib) * WaterFactor * BacterialFactor, 1)`;
whenever any coefficient is absent the full default set
`P=0.1, F=0.1, C=0.2, Fib=0.9, W=2.33, B=1.3` is used (all-or-nothing);
under defaults, inputs (10, 10, 50, 10) give 63.6 and all-zero inputs give 0.0. -/
theorem calculate_poop_amount_spec (s : Secrets) (protein fat carbs fiber : ℚ)
    (h : Secrets.P_RATIO s = none ∨ Secrets.F_RATIO s = none ∨ Secrets.C_RATIO s = none ∨
      Secrets.FIBER_RATIO s = none ∨ Secrets.WATER_FACTOR s = none ∨ Secrets.BAC_FACTOR s = none) :
    getCoeffs s = defaultCoeffs ∧
      calculate_poop_amount s protein fat carbs fiber
        = round1 (((protein * (1/10)) + (fat * (1/10)) + (carbs * (1/5)) + (fiber * (9/10)))
            * (233/100) * (13/10)) ∧
      calculate_poop_amount s 10 10 50 10 = 636/10 ∧
      calculate_poop_amount s 0 0 0 0 = 0 := by
  have hdef := getCoeffs_of_missing s h
  refine ⟨hdef, ?_, ?_, ?_⟩
  · simp only [calculate_poop_amount, hdef, defaultCoeffs]
  · simp only [calculate_poop_amount, hdef, defaultCoeffs]
    norm_num [round1, roundTiesEven]
  · simp only [calculate_poop_amount, hdef, defaultCoeffs]
    norm_num [round1, roundTiesEven]

theorem calculate_poop_amount_spec_witness :
    Secrets.P_RATIO (Secrets.mk none (some 1) (some 1) (some 1) (some 1) (some 1)) = none ∧
      calculate_poop_amount (Secrets.mk none (some 1) (some 1) (some 1) (some 1) (some 1))
        10 10 50 10 = 636/10 :=
  ⟨rfl, (calculate_poop_amount_spec
    (Secrets.mk none (some 1) (some 1) (some 1) (some 1) (some 1))
    10 10 50 10 (Or.inl rfl)).2.2.1⟩

/-! The per-portion share (`my_share_weight`, poops.py line 330) -/

/-- Line 330: `my_share_weight = (total_w * eat_ratio) / num_people`. -/
def my_share_weight (total_w eat_ratio : ℚ) (num_people : ℕ) : ℚ :=
  (total_w * eat_ratio) / num_people

/-- C9: with consumption ratio 1.0, the personal share times the diner
count reconstructs the total exactly: `my_share_weight total 1 n * n = total`
for every total > 0 and every n ≥ 1 (portion conservation). -/
theorem portion_conservation (total : ℚ) (n : ℕ)
    (htotal : 0 < total) (hn : 1 ≤ n) :
    my_share_weight total 1 n * n = total := by
  have hne : (n : ℚ) ≠ 0 := Nat.cast_ne_zero.mpr (by omega)
  field_simp [my_share_weight]

theorem portion_conservation_witness :
    (0:ℚ) < 300 ∧ 1 ≤ 4 ∧ my_share_weight 300 1 4 * 4 = 300 :=
  ⟨by decide, by decide, portion_conservation 300 4 (by decide) (by decide)⟩

/-! Transit estimation (poops.py lines 127–172, 205–209)

`parse_dt` parses `"%Y-%m-%d %H:%M"` or returns `None`; a log entry's
date is therefore modelled as `Option ℤ` — `some t` for a parseable
string (`t` in minutes on an absolute scale) and `none` for one
`strptime` rejects. Hour spans are rationals (minutes / 60). -/

/-- Embeds `get_latest_meal_dt`: `max` of the parseable meal dates, else `None`. -/
def get_latest_meal_dt (meals : List (Option ℤ)) : Option ℤ :=
  match meals.filterMap id with
  | [] => none
  | d :: ds => some (ds.foldl max d)

/-- Model of `statistics.median`: middle of the sorted list, or the mean of the
two middle elements for even length. -/
def medianQ (xs : List ℚ) : ℚ :=
  let s := List.insertionSort (· ≤ ·) xs
  if s.length % 2 = 1 then s.getD (s.length / 2) 0
  else (s.getD (s.length / 2 - 1) 0 + s.getD (s.length / 2) 0) / 2

/-- The diagnostics and result of `estimate_transit_hours`:
`(median, {"meals": _, "poops": _, "samples": _})`. -/
structure TransitOut where
  median : Option ℚ
  meals : ℕ
  poops : ℕ
  samples : ℕ
deriving DecidableEq

/-- The cutoff `now - timedelta(days=window_days)`, in minutes. -/
def transit_cutoff (now window_days : ℤ) : ℤ := now - window_days * 1440

/-- The filtering loops of `estimate_transit_hours`: keep entries whose
date parses and satisfies `dt >= cutoff` (the code imposes no upper
bound at `now`). -/
def window_filter (now window_days : ℤ) (l : List (Option ℤ)) : List ℤ :=
  (l.filterMap id).filter (fun t => transit_cutoff now window_days ≤ t)

/-- The pairing loop: for each meal (chronological), the first elimination
at or after it; its hour span is a sample when `0 ≤ delta ≤ max_hours`;
either way scanning stops for that meal. -/
def transit_deltas (meals_s poops_s : List ℤ) (max_hours : ℚ) : List ℚ :=
  meals_s.filterMap (fun mt =>
    match poops_s.find? (fun pt => mt ≤ pt) with
    | some pt =>
        if 0 ≤ (((pt - mt : ℤ) : ℚ) / 60) ∧ (((pt - mt : ℤ) : ℚ) / 60) ≤ max_hours
        then some (((pt - mt : ℤ) : ℚ) / 60) else none
    | none => none)

/-- Embeds `estimate_transit_hours(meals, poops, window_days=3, max_hours=72)`. -/
def estimate_transit_hours (now window_days : ℤ) (max_hours : ℚ)
    (meals poops : List (Option ℤ)) : TransitOut :=
  let meals_f := window_filter now window_days meals
  let poops_f := window_filter now window_days poops
  let meals_s := List.insertionSort (· ≤ ·) meals_f
  let poops_s := List.insertionSort (· ≤ ·) poops_f
  if meals_s = [] ∨ poops_s = [] then
    ⟨none, meals_f.length, poops_f.length, 0⟩
  else
    let deltas := transit_deltas meals_s poops_s max_hours
    if deltas.length < 3 then ⟨none, meals_f.length, poops_f.length, deltas.length⟩
    else ⟨some (medianQ deltas), meals_f.length, poops_f.length, deltas.length⟩

/-- The prediction block (poops.py lines 207–209): `next_pred_dt = None`;
`if transit_hours and latest_meal_dt: next_pred_dt = latest_meal_dt +
timedelta(hours=transit_hours)`. Python truthiness: a `None` or `0.0`
median is falsy, a `datetime` is always truthy. Result in minutes. -/
def next_pred_dt (transit_hours : Option ℚ) (latest_meal_dt : Option ℤ) : Option ℚ :=
  match transit_hours, latest_meal_dt with
  | some h, some m => if h = 0 then none else some ((m : ℚ) + 60 * h)
  | _, _ => none

/-- C5 (code behaviour at the failing input): a defined transit median of
0 hours together with an existing latest meal yields NO prediction —
`if transit_hours and latest_meal_dt:` treats the float `0.0` as falsy —
though a nonzero median does yield `latest_meal + median`. -/
theorem next_pred_dt_zero_median_bug :
    next_pred_dt (some 0) (some 0) = none ∧
      next_pred_dt (some 1) (some 0) = some 60 := by
  refine ⟨rfl, ?_⟩
  norm_num [next_pred_dt]

lemma filterMap_id_filter_isSome (l : List (Option ℤ)) :
    (l.filter Option.isSome).filterMap id = l.filterMap id := by
  induction l with
  | nil => rfl
  | cons a l ih => cases a <;> simp [ih]

/-- C10: `estimate_transit_hours` and `get_latest_meal_dt` are total on
logs with unparseable date strings (`parse_dt` returns `None` for them):
such entries contribute neither to the diagnostics counts nor to any
sample, and the result equals the one on the input with those entries
removed. -/
theorem unparseable_dates_skipped (now window_days : ℤ) (max_hours : ℚ)
    (meals poops : List (Option ℤ)) :
    estimate_transit_hours now window_days max_hours meals poops
        = estimate_transit_hours now window_days max_hours
            (meals.filter Option.isSome) (poops.filter Option.isSome) ∧
      get_latest_meal_dt meals = get_latest_meal_dt (meals.filter Option.isSome) := by
  constructor
  · unfold estimate_transit_hours window_filter
    rw [filterMap_id_filter_isSome, filterMap_id_filter_isSome]
  · unfold get_latest_meal_dt
    rw [filterMap_id_filter_isSome]

/-- C6 counterexample: with `now = 0`, `window_days = 3`, a single meal
whose timestamp is 1440 minutes AFTER `now` is still counted in the
diagnostics (`meals = 1`), though the claim says every event after `now`
is excluded. -/
theorem transit_window_future_counterexample :
    (estimate_transit_hours 0 3 72 [some 1440] []).meals = 1 := by decide

lemma window_filter_cons_of_lt {now window_days t : ℤ}
    (ht : t < transit_cutoff now window_days) (l : List (Option ℤ)) :
    window_filter now window_days (some t :: l) = window_filter now window_days l := by
  unfold window_filter
  simp [List.filterMap_cons, List.filter_cons, not_le.mpr ht]

/-- C6 (amended): the estimator filters each event list only from below:
it considers exactly the parseable events with timestamp ≥ now −
window_days, so an event before the cutoff is excluded from the
diagnostics counts and the pairing, but an event after `now` is NOT
excluded. -/
theorem transit_window_lower_cutoff_only (now window_days : ℤ) (max_hours : ℚ)
    (meals poops : List (Option ℤ)) (t u : ℤ)
    (ht : t < transit_cutoff now window_days)
    (hu : u < transit_cutoff now window_days) :
    (estimate_transit_hours now window_days max_hours meals poops).meals
        = (window_filter now window_days meals).length ∧
      (estimate_transit_hours now window_days max_hours meals poops).poops
        = (window_filter now window_days poops).length ∧
      estimate_transit_hours now window_days max_hours (some t :: meals) poops
        = estimate_transit_hours now window_days max_hours meals poops ∧
      estimate_transit_hours now window_days max_hours meals (some u :: poops)
        = estimate_transit_hours now window_days max_hours meals poops := by
  refine ⟨?_, ?_, ?_, ?_⟩
  · simp only [estimate_transit_hours]
    split
    · rfl
    · split <;> rfl
  · simp only [estimate_transit_hours]
    split
    · rfl
    · split <;> rfl
  · unfold estimate_transit_hours
    rw [window_filter_cons_of_lt ht]
  · unfold estimate_transit_hours
    rw [window_filter_cons_of_lt hu]

theorem transit_window_lower_cutoff_only_witness :
    (-9000 : ℤ) < transit_cutoff 0 3 ∧
      estimate_transit_hours 0 3 72 [some (-9000), some 10] [some 20]
        = estimate_transit_hours 0 3 72 [some 10] [some 20] :=
  ⟨by decide,
    (transit_window_lower_cutoff_only 0 3 72 [some 10] [some 20] (-9000) (-9000)
      (by decide) (by decide)).2.2.1⟩

/-! Normalization of the AI result (poops.py lines 110–125)

Python's `str.strip()`/`str.replace("g","")`/`float()` are modelled as
structurally recursive functions on the character list. -/

/-- Python `str.strip()`: drop leading and trailing whitespace. -/
def pyStrip (s : String) : String :=
  ⟨((s.data.dropWhile Char.isWhitespace).reverse.dropWhile Char.isWhitespace).reverse⟩

/-- Python `s.replace("g", "")`: remove every occurrence of `"g"`. -/
def removeG (s : String) : String :=
  ⟨s.data.filter (fun c => c ≠ 'g')⟩

/-- Value of a digit run. -/
def digitsVal (l : List Char) : ℕ :=
  l.foldl (fun a c => 10 * a + (c.toNat - 48)) 0

/-- Python `float()` on an unsigned decimal literal: digits with an
optional decimal point and at least one digit. -/
def parsePyFloatCore (ds : List Char) : Option ℚ :=
  let ip := ds.takeWhile Char.isDigit
  match ds.dropWhile Char.isDigit with
  | [] => if ip.isEmpty then none else some (digitsVal ip : ℚ)
  | '.' :: fp =>
      if fp.all Char.isDigit && !(ip.isEmpty && fp.isEmpty) then
        some ((digitsVal ip : ℚ) + (digitsVal fp : ℚ) / (10 ^ fp.length))
      else none
  | _ => none

/-- Python `float()` on the decimal literals a mass string can carry:
optional sign, then `parsePyFloatCore` (exponent forms, `inf`/`nan`
and underscores are out of scope for mass strings). -/
def parsePyFloat (s : String) : Option ℚ :=
  match s.data with
  | '-' :: rest => (parsePyFloatCore rest).map (fun q => -q)
  | '+' :: rest => parsePyFloatCore rest
  | _ => parsePyFloatCore s.data

/-- The raw `total_weight_g` field of the AI response: a JSON number, a
string (unit-suffixed or not), or a value `float()` rejects — an absent
key (`raw.get` returns `None`), a list, a dict, or JSON `null`. -/
inductive MassField
  | num (q : ℚ)
  | strv (s : String)
  | other
deriving DecidableEq

/-- The mass-parsing path of `normalize_ai_result`: strings go through
`.replace("g", "").strip()` then `float(...)`; a non-string non-number
makes `float` raise. -/
def parseMass : MassField → Option ℚ
  | .num q => some q
  | .strv s => parsePyFloat (pyStrip (removeG s))
  | .other => none

/-- A raw recognizer response: either not a dict, or a dict whose
`food_name` is read through `str(raw.get("food_name", ""))` (always a
string, `""` when absent), whose `total_weight_g` is a `MassField`, and
whose `comment` is read by `raw.get("comment", "")`. -/
inductive Raw
  | notDict
  | obj (food_name : String) (total : MassField) (comment : String)
deriving DecidableEq

/-- The normalized record `{"food_name": ..., "total_weight_g": ..., "comment": ...}`. -/
structure FoodRec where
  food_name : String
  total_weight_g : ℚ
  comment : String
deriving DecidableEq

/-- Embeds `normalize_ai_result(raw)`: returns `(record, None)` or `(None, reason)`. -/
def normalize_ai_result : Raw → Option FoodRec × Option String
  | .notDict => (none, some ("AI 응답 형식을 확인할 수 없습니다."))
  | .obj food_name total comment =>
    let name := pyStrip food_name
    match parseMass total with
    | none => (none, some ("총 중량 값을 숫자로 해석할 수 없습니다."))
    | some t =>
      if name = "" then (none, some ("메뉴명을 확인할 수 없습니다."))
      else if t ≤ 0 then (none, some ("총 중량은 0보다 커야 합니다."))
      else (some ⟨name, t, comment⟩, none)

/-- C7: `normalize_ai_result` fails (no record, an error reason) iff the
input is not a dict, or the mass field does not parse to a number after
unit stripping, or the parsed mass is ≤ 0, or the food name is empty
after trimming; otherwise it returns the record with the trimmed name,
the parsed positive mass, and the commentary. -/
theorem normalize_ai_result_spec (fn : String) (total : MassField) (comment : String) :
    ((normalize_ai_result (Raw.obj fn total comment)).1 = none ↔
        parseMass total = none ∨ (∃ q, parseMass total = some q ∧ q ≤ 0) ∨ pyStrip fn = "") ∧
      (normalize_ai_result Raw.notDict).1 = none ∧
      (∀ q : ℚ, parseMass total = some q → 0 < q → pyStrip fn ≠ "" →
        normalize_ai_result (Raw.obj fn total comment)
          = (some ⟨pyStrip fn, q, comment⟩, none)) := by
  refine ⟨?_, rfl, ?_⟩
  · cases hp : parseMass total with
    | none => simp [normalize_ai_result, hp]
    | some q =>
      by_cases hname : pyStrip fn = "" <;> by_cases hq : q ≤ 0 <;>
        simp [normalize_ai_result, hname, hq, hp]
  · intro q hq hpos hname
    simp [normalize_ai_result, hq, hname, not_le.mpr hpos]

theorem normalize_ai_result_spec_witness :
    parseMass (MassField.num 300) = some 300 ∧ (0:ℚ) < 300 ∧ pyStrip ("kimchi") ≠ "" ∧
      normalize_ai_result (Raw.obj ("kimchi") (MassField.num 300) "")
        = (some ⟨pyStrip ("kimchi"), 300, ""⟩, none) :=
  ⟨rfl, by decide, by decide,
    (normalize_ai_result_spec ("kimchi") (MassField.num 300) "").2.2 300 rfl
      (by decide) (by decide)⟩

/-! The food database loader (poops.py lines 72–81)

`pd.read_csv` loads a missing numeric cell as NaN (modelled: `none`),
then `df.set_index('menu').to_dict(orient='index')` raises when the
`menu` column has duplicates, which the `except` arm turns into `{}`. -/

/-- One CSV row: the `menu` key and the four per-100g nutrient cells; a
cell is `none` when the CSV cell is empty (pandas loads it as NaN). -/
structure FoodRow where
  menu : String
  protein : Option ℚ
  fat : Option ℚ
  carbs : Option ℚ
  fiber : Option ℚ
deriving DecidableEq

/-- A nutrient profile as stored in the food DB dict. -/
structure FoodProfile where
  protein : Option ℚ
  fat : Option ℚ
  carbs : Option ℚ
  fiber : Option ℚ
deriving DecidableEq

/-- Model of the pandas index conversion of menu-keyed rows: it raises
`ValueError` (modelled: `none`) when the index has duplicates. -/
def to_dict_index (rows : List FoodRow) : Option (List (String × FoodProfile)) :=
  if (rows.map FoodRow.menu).Nodup then
    some (rows.map fun r => (r.menu, ⟨r.protein, r.fat, r.carbs, r.fiber⟩))
  else none

/-- Embeds `load_food_db()`: the `except` arm returns `{}` when the conversion
raises. -/
def load_food_db (rows : List FoodRow) : List (String × FoodProfile) :=
  match to_dict_index rows with
  | some t => t
  | none => []

/-- C8 counterexample: a row with a missing `protein` cell is loaded with
no value there (pandas NaN), not the value 0; and two rows sharing the
key `"a"` make the loader return the empty table — `"a"` is absent —
rather than keeping the first occurrence. -/
theorem load_food_db_counterexample :
    List.lookup ("a") (load_food_db [⟨"a", none, some 1, some 2, some 3⟩])
        = some ⟨none, some 1, some 2, some 3⟩ ∧
      load_food_db [⟨"a", some 1, some 1, some 1, some 1⟩,
        ⟨"a", some 2, some 2, some 2, some 2⟩] = [] := by
  constructor
  · rfl
  · decide

/-- C8 (amended): the loader keeps a missing numeric cell as a missing
value (NaN), not 0; when all `menu` keys are distinct it keeps every row
in order, and when any key repeats the index conversion fails and the
loader returns the empty table instead of deduplicating first-wins. -/
theorem load_food_db_amended (rows : List FoodRow)
    (h : (rows.map FoodRow.menu).Nodup) :
    load_food_db rows = rows.map (fun r => (r.menu, ⟨r.protein, r.fat, r.carbs, r.fiber⟩)) ∧
      (∀ rows' : List FoodRow, ¬ (rows'.map FoodRow.menu).Nodup → load_food_db rows' = []) := by
  constructor
  · unfold load_food_db to_dict_index
    rw [if_pos h]
  · intro rows' h'
    unfold load_food_db to_dict_index
    rw [if_neg h']

theorem load_food_db_amended_witness :
    ([⟨"a", none, some 1, some 2, some 3⟩, ⟨"b", some 4, some 5, some 6, some 7⟩].map
        FoodRow.menu).Nodup ∧
      load_food_db [⟨"a", none, some 1, some 2, some 3⟩, ⟨"b", some 4, some 5, some 6, some 7⟩]
        = [("a", ⟨none, some 1, some 2, some 3⟩), ("b", ⟨some 4, some 5, some 6, some 7⟩)] :=
  ⟨by decide,
    (load_food_db_amended
      [⟨"a", none, some 1, some 2, some 3⟩, ⟨"b", some 4, some 5, some 6, some 7⟩]
      (by decide)).1⟩

end Poops
